import Mathlib

/-!
Verification development for the acorn-pups-mobile BLE WiFi-provisioning
engine.  The definitions below are a shallow embedding of
`src/services/wifiProvisioningService.ts` and `BleService`
(`bleService.ts`): the status-token state machine, the 30-second timeout
fallback, credential validation and transmission, service negotiation,
and the scan filter/deduplication logic.
-/

namespace AcornPups

/-- Phase of `WiFiProvisioningStatus` ("processing" | "complete" | "error"). -/
inductive Phase
  | processing
  | complete
  | error
deriving DecidableEq, Repr

/-- The status record emitted to the session's status callback
(fields as in the `WiFiProvisioningStatus` interface). -/
structure WiFiProvisioningStatus where
  phase : Phase
  progress : Nat
  message : String
  isComplete : Bool
  isError : Bool
  error : Option String := none
  warning : Option String := none
deriving DecidableEq, Repr

/-- The `WiFiProvisioningError` enum from `src/types/wifi.ts`. -/
inductive WiFiProvisioningError
  | SERVICE_NOT_FOUND
  | CHARACTERISTIC_NOT_FOUND
  | WRITE_FAILED
  | DEVICE_NOT_CONNECTED
  | INVALID_CREDENTIALS
  | TIMEOUT
  | UNKNOWN_ERROR
deriving DecidableEq, Repr

/-- The `BleError` enum from `src/types/ble.ts`. -/
inductive BleError
  | PERMISSION_DENIED
  | BLUETOOTH_DISABLED
  | DEVICE_NOT_FOUND
  | CONNECTION_FAILED
  | SCANNING_FAILED
  | LOCATION_PERMISSION_DENIED
  | UNKNOWN_ERROR
deriving DecidableEq, Repr

/-- The mapping from a decoded status token to the emitted status record:
the `switch (status)` body of `handleStatusUpdate`. -/
def statusForToken (status : String) : WiFiProvisioningStatus :=
  if status = "RECEIVED" then
    { phase := Phase.processing, progress := 25,
      message := "✅ Credentials received",
      isComplete := false, isError := false }
  else if status = "PROCESSING" then
    { phase := Phase.processing, progress := 50,
      message := "🔄 Processing credentials...",
      isComplete := false, isError := false }
  else if status = "STORED" then
    { phase := Phase.processing, progress := 75,
      message := "💾 Credentials stored",
      isComplete := false, isError := false }
  else if status = "SUCCESS" then
    { phase := Phase.complete, progress := 100,
      message := "🎉 WiFi provisioning successful!",
      isComplete := true, isError := false }
  else if status = "STORAGE_FAILED" then
    { phase := Phase.error, progress := 0,
      message := "❌ Failed to store credentials",
      isComplete := true, isError := true,
      error := some "Device couldn't save WiFi settings" }
  else if status = "ERROR_INVALID_JSON" then
    { phase := Phase.error, progress := 0,
      message := "❌ Invalid credential format",
      isComplete := true, isError := true,
      error := some "WiFi credentials format was invalid" }
  else
    { phase := Phase.error, progress := 0,
      message := "❌ Unknown status: " ++ status,
      isComplete := true, isError := true,
      error := some ("Received unknown status: " ++ status) }

/-- The fixed token vocabulary recognized by `handleStatusUpdate`. -/
def statusVocab : List String :=
  ["RECEIVED", "PROCESSING", "STORED", "SUCCESS", "STORAGE_FAILED",
   "ERROR_INVALID_JSON"]

/-- The status emitted by the 30-second deadline callback in
`startStatusTimeout`. -/
def timeoutStatus : WiFiProvisioningStatus :=
  { phase := Phase.complete, progress := 100,
    message := "✅ WiFi credentials sent successfully!",
    isComplete := true, isError := false,
    warning :=
      some "Device likely connected to WiFi and restarted (normal behavior)" }

/-- The optimistic status emitted when the credential write fails with a
"disconnected" error (the catch branch of `sendWiFiCredentials`). -/
def disconnectionStatus : WiFiProvisioningStatus :=
  { phase := Phase.complete, progress := 100,
    message := "📱 Device restarted to connect to WiFi",
    isComplete := true, isError := false,
    warning :=
      some "Device disconnected after receiving credentials (normal behavior)" }

/-- Mutable state of the `WiFiProvisioningService` singleton that the
claims are about: whether `this.device`/`this.ssidCharacteristic` are
set, whether `this.statusTimeout` holds a pending timer, the sequence of
statuses delivered to `this.statusCallback`, and how many characteristic
writes have been attempted. -/
structure ProvState where
  deviceConnected : Bool
  statusTimeoutSet : Bool
  emitted : List WiFiProvisioningStatus
  writesAttempted : Nat
deriving DecidableEq, Repr

/-- `handleStatusUpdate`: on any decoded token it clears the pending
timeout and reports the mapped status through the callback. -/
def handleStatusUpdate (st : ProvState) (status : String) : ProvState :=
  { st with
    statusTimeoutSet := false,
    emitted := st.emitted ++ [statusForToken status] }

/-- Asynchronous events delivered to a session after credentials were
sent: a decoded status notification, or the one-shot deadline firing. -/
inductive SessionEvent
  | statusToken (t : String)
  | timeoutFire
deriving DecidableEq, Repr

/-- One event step of the session.  The deadline callback runs only if
the one-shot timer is still pending (a cleared timer never fires). -/
def sessionStep (st : ProvState) : SessionEvent → ProvState
  | SessionEvent.statusToken t => handleStatusUpdate st t
  | SessionEvent.timeoutFire =>
      if st.statusTimeoutSet then
        { st with
          statusTimeoutSet := false,
          emitted := st.emitted ++ [timeoutStatus] }
      else st

/-- Session state immediately after `sendWiFiCredentials` returned
successfully: the 30-second timer is pending and one write was made. -/
def stateAfterSend : ProvState :=
  { deviceConnected := true, statusTimeoutSet := true,
    emitted := [], writesAttempted := 1 }

/-- A session run: fold the event trace over the state reached right
after a successful credential send. -/
def runSession (events : List SessionEvent) : ProvState :=
  events.foldl sessionStep stateAfterSend

/-! ## Credential transmission (`sendWiFiCredentials`) -/

/-- The five-field credentials object used by `sendWiFiCredentials`
(ssid, password, auth_token, device_name, user_timezone). -/
structure WiFiCredentials where
  ssid : String
  password : String
  auth_token : String
  device_name : String
  user_timezone : String
deriving DecidableEq, Repr

/-- Does list `p` occur at the start of list `s`?  (character-level helper
for the JavaScript `String.prototype.includes` check). -/
def startsWithL : List Char → List Char → Bool
  | [], _ => true
  | _ :: _, [] => false
  | a :: as, b :: bs => a == b && startsWithL as bs

/-- Does list `p` occur contiguously anywhere inside `s`? -/
def hasSubL (p : List Char) : List Char → Bool
  | [] => startsWithL p []
  | c :: rest => startsWithL p (c :: rest) || hasSubL p rest

/-- `s.includes(pat)` of JavaScript: substring containment. -/
def containsSub (s pat : String) : Bool :=
  hasSubL pat.data s.data

/-- The whitespace class removed by JavaScript `String.prototype.trim`
(ASCII whitespace plus the common Unicode space/line separators). -/
def isJsWhitespace (c : Char) : Bool :=
  c == ' ' || (9 ≤ c.toNat && c.toNat ≤ 13) || c.toNat == 160
    || c.toNat == 0x1680 || (0x2000 ≤ c.toNat && c.toNat ≤ 0x200A)
    || c.toNat == 0x2028 || c.toNat == 0x2029 || c.toNat == 0x202F
    || c.toNat == 0x205F || c.toNat == 0x3000 || c.toNat == 0xFEFF

/-- JavaScript `s.trim()`: strip leading and trailing whitespace. -/
def jsTrim (s : String) : String :=
  String.mk
    (((s.data.dropWhile isJsWhitespace).reverse.dropWhile isJsWhitespace).reverse)

/-- Lowercase hexadecimal digit, as produced by `JSON.stringify` control
escapes. -/
def hexDigit (n : Nat) : Char :=
  if n < 10 then Char.ofNat (48 + n) else Char.ofNat (87 + n)

/-- Escaping of one character inside a `JSON.stringify` string literal. -/
def jsonEscapeChar (c : Char) : String :=
  if c = '"' then "\\\""
  else if c = '\\' then "\\\\"
  else if c = Char.ofNat 8 then "\\b"
  else if c = Char.ofNat 9 then "\\t"
  else if c = Char.ofNat 10 then "\\n"
  else if c = Char.ofNat 12 then "\\f"
  else if c = Char.ofNat 13 then "\\r"
  else if c.toNat < 32 then
    "\\u00" ++ String.mk [hexDigit (c.toNat / 16), hexDigit (c.toNat % 16)]
  else String.singleton c

/-- A `JSON.stringify` string literal. -/
def jsonQuote (s : String) : String :=
  "\"" ++ String.join (s.data.map jsonEscapeChar) ++ "\""

/-- The serialized payload built in `sendWiFiCredentials`:
`JSON.stringify` of the five-field object, keys in insertion order. -/
def credentialsJson (c : WiFiCredentials) : String :=
  "\x7b\"ssid\":" ++ jsonQuote c.ssid
    ++ ",\"password\":" ++ jsonQuote c.password
    ++ ",\"auth_token\":" ++ jsonQuote c.auth_token
    ++ ",\"device_name\":" ++ jsonQuote c.device_name
    ++ ",\"user_timezone\":" ++ jsonQuote c.user_timezone
    ++ "\x7d"

/-- The base64 alphabet used by `btoa`. -/
def base64Chars : List Char :=
  "ABCDEFGHIJKLMNOPQRSTUVWXYZabcdefghijklmnopqrstuvwxyz0123456789+/".data

/-- The base64 digit for a 6-bit value. -/
def base64Char (n : Nat) : Char :=
  base64Chars.getD n 'A'

/-- Base64 encoding of a byte list, three bytes per 4-character group,
`=`-padded. -/
def btoaChunks : List Nat → String
  | [] => ""
  | [b0] =>
      String.mk [base64Char (b0 / 4), base64Char (b0 % 4 * 16)] ++ "=="
  | [b0, b1] =>
      String.mk [base64Char (b0 / 4), base64Char (b0 % 4 * 16 + b1 / 16),
                 base64Char (b1 % 16 * 4)] ++ "="
  | b0 :: b1 :: b2 :: rest =>
      String.mk [base64Char (b0 / 4), base64Char (b0 % 4 * 16 + b1 / 16),
                 base64Char (b1 % 16 * 4 + b2 / 64), base64Char (b2 % 64)]
        ++ btoaChunks rest

/-- JavaScript `btoa` on a Latin-1 string: base64 of its char codes. -/
def btoa (s : String) : String :=
  btoaChunks (s.data.map Char.toNat)

/-- Result of one `writeWithResponse` call on the SSID characteristic,
as observed by the session: accepted, or rejected with an error
message. -/
inductive WriteOutcome
  | ok
  | err (message : String)
deriving DecidableEq, Repr

/-- Result of `sendWiFiCredentials`: normal return, or a thrown
`WiFiProvisioningError`. -/
inductive SendResult
  | ok
  | thrown (e : WiFiProvisioningError)
deriving DecidableEq, Repr

/-- `sendWiFiCredentials`: guard on connection, validate ssid and
auth_token, serialize to JSON, base64-encode with `btoa`, and make one
`writeWithResponse` call.  On success the 30-second status timeout is
started.  A rejection whose message includes "disconnected" is converted
into the optimistic `disconnectionStatus` emission and a normal return;
any other rejection throws `WRITE_FAILED`. -/
def sendWiFiCredentials (st : ProvState) (c : WiFiCredentials)
    (transport : String → WriteOutcome) : ProvState × SendResult :=
  if st.deviceConnected = false then
    (st, SendResult.thrown WiFiProvisioningError.DEVICE_NOT_CONNECTED)
  else if c.ssid = "" ∨ (jsTrim c.ssid).length = 0 then
    (st, SendResult.thrown WiFiProvisioningError.INVALID_CREDENTIALS)
  else if c.auth_token = "" ∨ (jsTrim c.auth_token).length = 0 then
    (st, SendResult.thrown WiFiProvisioningError.INVALID_CREDENTIALS)
  else
    let payload := btoa (credentialsJson c)
    let st1 := { st with writesAttempted := st.writesAttempted + 1 }
    match transport payload with
    | WriteOutcome.ok =>
        ({ st1 with statusTimeoutSet := true }, SendResult.ok)
    | WriteOutcome.err msg =>
        if containsSub msg "disconnected" then
          ({ st1 with emitted := st1.emitted ++ [disconnectionStatus] },
           SendResult.ok)
        else
          (st1, SendResult.thrown WiFiProvisioningError.WRITE_FAILED)

/-- Service state before any send: connected device, no pending timer,
nothing emitted, no writes attempted. -/
def sendState0 : ProvState :=
  { deviceConnected := true, statusTimeoutSet := false,
    emitted := [], writesAttempted := 0 }

/-! ## Service negotiation (`initialize`) -/

/-- The provisioning service UUID constant `WIFI_SERVICE_UUID`. -/
def WIFI_SERVICE_UUID : String := "12345678-1234-1234-1234-123456789abc"

/-- A GATT service as enumerated by `device.services()`: only its UUID
matters to the selection logic. -/
structure ServiceRec where
  uuid : String
deriving DecidableEq, Repr

/-- ASCII lowercasing of one character, as `String.prototype.toLowerCase`
acts on the ASCII range. -/
def toLowerChar (c : Char) : Char :=
  if 65 ≤ c.toNat ∧ c.toNat ≤ 90 then Char.ofNat (c.toNat + 32) else c

/-- `s.toLowerCase()` for ASCII strings such as UUIDs. -/
def strToLower (s : String) : String :=
  String.mk (s.data.map toLowerChar)

/-- The service lookup in `initialize`: `services.find(s =>
s.uuid.toLowerCase() === WIFI_SERVICE_UUID.toLowerCase())`. -/
def findWifiService (services : List ServiceRec) : Option ServiceRec :=
  services.find? (fun s => strToLower s.uuid == strToLower WIFI_SERVICE_UUID)

/-- Outcome of the service-selection step of `initialize`. -/
inductive ServiceSelection
  | selected (s : ServiceRec)
  | failed (e : WiFiProvisioningError)
deriving DecidableEq, Repr

/-- The service-selection step of `initialize`: exact (case-insensitive)
UUID match or throw `SERVICE_NOT_FOUND`. -/
def initializeServiceSelection (services : List ServiceRec) : ServiceSelection :=
  match findWifiService services with
  | some s => ServiceSelection.selected s
  | none => ServiceSelection.failed WiFiProvisioningError.SERVICE_NOT_FOUND

/-- Modelled from the spec: the priority-ordered negotiation strategy
that §4.2 step 1 describes for `initialize` — (a) exact known UUID,
(b) known-vendor fallback UUIDs, (c) first non-0000-prefixed 128-bit
UUID, (d) first service returned — stopping at the first matching tier.
This definition follows the spec's words and exists only to be compared
with `initializeServiceSelection`, the selection the source performs. -/
def specServiceSelect (fallbacks : List String) (services : List ServiceRec) :
    Option ServiceRec :=
  match services.find?
      (fun s => strToLower s.uuid == strToLower WIFI_SERVICE_UUID) with
  | some s => some s
  | none =>
    match services.find? (fun s => fallbacks.contains (strToLower s.uuid)) with
    | some s => some s
    | none =>
      match services.find?
          (fun s => !(startsWithL "0000".data s.uuid.data)
            && s.uuid.length == 36) with
      | some s => some s
      | none => services.head?

/-- `BleService.connectToDevice`: one connection attempt; any
transport-level failure throws `CONNECTION_FAILED`. -/
def connectToDevice (succeeded : Bool) : Except BleError Unit :=
  if succeeded then Except.ok () else Except.error BleError.CONNECTION_FAILED

/-! ## Scanning (`BleService.startScanning`) -/

/-- A raw advertisement event handed to the `startDeviceScan` callback:
id, possibly-missing name, possibly-missing RSSI and connectable flag. -/
structure AdvDevice where
  id : String
  name : Option String
  rssi : Option Int
  isConnectable : Option Bool
deriving DecidableEq, Repr

/-- The `BleDevice` record reported to `onDeviceFound`
(`src/types/ble.ts`). -/
structure BleDevice where
  id : String
  name : String
  rssi : Int
  isConnectable : Bool
deriving DecidableEq, Repr

/-- JavaScript `x || d` for a nullable number (`0` is falsy). -/
def jsOrInt (x : Option Int) (d : Int) : Int :=
  match x with
  | none => d
  | some v => if v = 0 then d else v

/-- JavaScript `x || d` for a nullable boolean. -/
def jsOrBool (x : Option Bool) (d : Bool) : Bool :=
  match x with
  | none => d
  | some v => if v then v else d

/-- JavaScript truthiness of the optional `targetDeviceName` argument
(`undefined` and the empty string are falsy). -/
def jsTruthyStr (o : Option String) : Bool :=
  match o with
  | none => false
  | some s => !(s == "")

/-- State of one scan session: the `foundDevices` map (insertion order)
and the devices reported through `onDeviceFound`. -/
structure ScanState where
  found : List (String × BleDevice)
  reported : List BleDevice
deriving DecidableEq, Repr

/-- The body of the `startDeviceScan` callback in
`BleService.startScanning`, for one advertisement: skip unnamed
devices, apply the hard-coded `"AcornPups-"` prefix test whenever a
(truthy) target name was supplied, then report the device unless its
identifier is already in `foundDevices`. -/
def scanCallback (targetDeviceName : Option String) (st : ScanState)
    (d : AdvDevice) : ScanState :=
  match d.name with
  | none => st
  | some nm =>
    if nm = "" then st
    else if jsTruthyStr targetDeviceName
        && !(startsWithL "AcornPups-".data nm.data) then
      st
    else
      let bd : BleDevice :=
        { id := d.id, name := nm, rssi := jsOrInt d.rssi (-100),
          isConnectable := jsOrBool d.isConnectable false }
      if st.found.any (fun p => p.1 == d.id) then st
      else
        { found := st.found ++ [(d.id, bd)],
          reported := st.reported ++ [bd] }

/-- A whole scan session over a list of advertisement events, starting
from the fresh `foundDevices` map. -/
def runScan (targetDeviceName : Option String) (events : List AdvDevice) :
    ScanState :=
  events.foldl (scanCallback targetDeviceName) { found := [], reported := [] }

/-! ## Helper lemmas -/

/-- Running one more event is one `sessionStep` on the state so far. -/
theorem runSession_append_single (evs : List SessionEvent) (e : SessionEvent) :
    runSession (evs ++ [e]) = sessionStep (runSession evs) e := by
  rw [runSession, runSession, List.foldl_append]
  rfl

/-- No session event re-arms a cleared timeout. -/
theorem sessionStep_keeps_timeout_clear (st : ProvState) (e : SessionEvent)
    (h : st.statusTimeoutSet = false) :
    (sessionStep st e).statusTimeoutSet = false := by
  cases e with
  | statusToken t => rfl
  | timeoutFire => simp [sessionStep, h]

/-- Folding any event list over a state with a cleared timeout leaves
the timeout cleared. -/
theorem foldl_keeps_timeout_clear (evs : List SessionEvent) (st : ProvState)
    (h : st.statusTimeoutSet = false) :
    (evs.foldl sessionStep st).statusTimeoutSet = false := by
  induction evs generalizing st with
  | nil => simpa using h
  | cons e rest ih => exact ih _ (sessionStep_keeps_timeout_clear st e h)

/-! ## Claim theorems: status state machine -/

/-- C2: in a session whose credentials were sent successfully, if the
single 30-second deadline fires while still pending (no status token
arrived to cancel it), the session emits exactly the optimistic Complete
status: phase `complete`, progress 100, `isError` false, and a non-empty
warning — never an error. -/
theorem C2_timeout_optimistic_complete (pre : List SessionEvent)
    (h : (runSession pre).statusTimeoutSet = true) :
    (runSession (pre ++ [SessionEvent.timeoutFire])).emitted
        = (runSession pre).emitted ++ [timeoutStatus]
    ∧ timeoutStatus.phase = Phase.complete
    ∧ timeoutStatus.progress = 100
    ∧ timeoutStatus.isComplete = true
    ∧ timeoutStatus.isError = false
    ∧ ∃ w, timeoutStatus.warning = some w ∧ w ≠ "" := by
  refine ⟨?_, rfl, rfl, rfl, rfl, ⟨_, rfl, by decide⟩⟩
  rw [runSession_append_single]
  simp [sessionStep, h]

/-- Witness for C2: with no events before the deadline, the session
emits exactly the optimistic timeout status. -/
theorem C2_timeout_optimistic_complete_witness :
    (runSession [SessionEvent.timeoutFire]).emitted = [timeoutStatus] := by
  have h := (C2_timeout_optimistic_complete [] rfl).1
  simpa [runSession, stateAfterSend] using h

/-- C5 counterexample: the session does not latch terminal statuses.
After the terminal Complete for `SUCCESS` has been emitted, delivering
the token `FOO` emits a further (Error) status, so the stream is not
monotonic in the claimed sense. -/
theorem C5_counterexample :
    (runSession [SessionEvent.statusToken "SUCCESS"]).emitted
        = [statusForToken "SUCCESS"]
    ∧ (statusForToken "SUCCESS").isComplete = true
    ∧ (statusForToken "SUCCESS").phase = Phase.complete
    ∧ (runSession [SessionEvent.statusToken "SUCCESS",
        SessionEvent.statusToken "FOO"]).emitted
        = [statusForToken "SUCCESS", statusForToken "FOO"]
    ∧ (statusForToken "FOO").isError = true := by
  decide

/-- C5 (amended): along the happy path the emitted progress values are
25, 50, 75, 100 and strictly increase; but the session keeps emitting —
`handleStatusUpdate` appends a mapped status for every delivered token,
with no guard after a Complete or Error status has been emitted. -/
theorem C5_progress_no_latch :
    ((runSession [SessionEvent.statusToken "RECEIVED",
        SessionEvent.statusToken "PROCESSING",
        SessionEvent.statusToken "STORED",
        SessionEvent.statusToken "SUCCESS"]).emitted.map
          (fun s => s.progress) = [25, 50, 75, 100])
    ∧ List.Chain' (fun a b => a < b)
        ((runSession [SessionEvent.statusToken "RECEIVED",
          SessionEvent.statusToken "PROCESSING",
          SessionEvent.statusToken "STORED",
          SessionEvent.statusToken "SUCCESS"]).emitted.map
            (fun s => s.progress))
    ∧ ∀ (st : ProvState) (t : String),
        (handleStatusUpdate st t).emitted = st.emitted ++ [statusForToken t] := by
  have h1 : (runSession [SessionEvent.statusToken "RECEIVED",
      SessionEvent.statusToken "PROCESSING",
      SessionEvent.statusToken "STORED",
      SessionEvent.statusToken "SUCCESS"]).emitted.map
        (fun s => s.progress) = [25, 50, 75, 100] := by decide
  refine ⟨h1, ?_, fun st t => rfl⟩
  rw [h1]
  simp [List.chain'_cons]

/-- C6: any token outside the fixed vocabulary maps to a terminal Error
status (`isError` and `isComplete` both true) whose error cause contains
the literal unrecognized token, and the session emits it rather than
ignoring the token. -/
theorem C6_unknown_token_error (t : String) (h : t ∉ statusVocab) :
    (statusForToken t).phase = Phase.error
    ∧ (statusForToken t).isError = true
    ∧ (statusForToken t).isComplete = true
    ∧ (statusForToken t).error = some ("Received unknown status: " ++ t)
    ∧ (∃ p, (statusForToken t).error = some (p ++ t))
    ∧ ∀ st : ProvState, (handleStatusUpdate st t).emitted
        = st.emitted ++ [statusForToken t] := by
  simp only [statusVocab, List.mem_cons, List.mem_singleton, not_or] at h
  obtain ⟨h1, h2, h3, h4, h5, h6⟩ := h
  have hne : statusForToken t =
      { phase := Phase.error, progress := 0,
        message := "❌ Unknown status: " ++ t,
        isComplete := true, isError := true,
        error := some ("Received unknown status: " ++ t) } := by
    simp [statusForToken, h1, h2, h3, h4, h5, h6]
  exact ⟨by rw [hne], by rw [hne], by rw [hne], by rw [hne],
    ⟨"Received unknown status: ", by rw [hne]⟩, fun st => rfl⟩

/-- Witness for C6: the token `FOO` yields a terminal Error whose cause
contains `FOO`. -/
theorem C6_unknown_token_error_witness :
    (statusForToken "FOO").isError = true
    ∧ (statusForToken "FOO").error
        = some ("Received unknown status: " ++ "FOO") := by
  have h := C6_unknown_token_error "FOO" (by decide)
  exact ⟨h.2.1, h.2.2.2.1⟩

/-- C10: every delivered status token — recognized or not — clears the
pending deadline timer, and nothing re-arms it, so a deadline firing
after any token has been received is a no-op: the optimistic timeout
Complete can never be emitted after a status token. -/
theorem C10_token_cancels_timer :
    (∀ (st : ProvState) (t : String),
        (handleStatusUpdate st t).statusTimeoutSet = false)
    ∧ (∀ (st : ProvState) (e : SessionEvent), st.statusTimeoutSet = false →
        (sessionStep st e).statusTimeoutSet = false)
    ∧ ∀ (pre : List SessionEvent) (t : String) (mid : List SessionEvent),
        runSession ((pre ++ SessionEvent.statusToken t :: mid)
            ++ [SessionEvent.timeoutFire])
          = runSession (pre ++ SessionEvent.statusToken t :: mid) := by
  refine ⟨fun st t => rfl, sessionStep_keeps_timeout_clear, fun pre t mid => ?_⟩
  have hclear : (runSession (pre ++ SessionEvent.statusToken t :: mid)).statusTimeoutSet
      = false := by
    rw [runSession, List.foldl_append, List.foldl_cons]
    exact foldl_keeps_timeout_clear mid _ rfl
  rw [runSession_append_single]
  simp [sessionStep, hclear]

/-- Witness for C10: a deadline firing after the token `RECEIVED` was
received changes nothing. -/
theorem C10_token_cancels_timer_witness :
    runSession (([] ++ SessionEvent.statusToken "RECEIVED" :: [])
        ++ [SessionEvent.timeoutFire])
      = runSession ([] ++ SessionEvent.statusToken "RECEIVED" :: []) :=
  C10_token_cancels_timer.2.2 [] "RECEIVED" []

/-! ## Claim theorems: credential transmission -/

/-- Concrete credentials from the spec's happy-path scenario. -/
def provisioningCreds : WiFiCredentials :=
  { ssid := "HomeNet", password := "p@ss1234", auth_token := "tok",
    device_name := "Kitchen", user_timezone := "UTC" }

/-- A transport whose write rejection carries a "disconnected" message:
the peripheral dropped the link while the write was in flight, so the
write never succeeded. -/
def disconnectingTransport : String → WriteOutcome :=
  fun _ => WriteOutcome.err "Device was disconnected"

/-- A transport that accepts the raw credentials text but rejects the
base64-encoded payload the session actually writes, with a message that
has nothing to do with disconnection. -/
def textOnlyTransport : String → WriteOutcome :=
  fun p => if p = credentialsJson provisioningCreds then WriteOutcome.ok
           else WriteOutcome.err "write rejected"

/-- C7: with a connected session, credentials whose network name or
bearer token is empty or whitespace-only make `sendWiFiCredentials`
throw `INVALID_CREDENTIALS` with the service state returned unchanged:
no write is attempted and no deadline timer is started. -/
theorem C7_invalid_credentials_no_write (st : ProvState) (c : WiFiCredentials)
    (transport : String → WriteOutcome)
    (hconn : st.deviceConnected = true)
    (hbad : jsTrim c.ssid = "" ∨ jsTrim c.auth_token = "") :
    sendWiFiCredentials st c transport
      = (st, SendResult.thrown WiFiProvisioningError.INVALID_CREDENTIALS) := by
  unfold sendWiFiCredentials
  rw [hconn]
  cases hbad with
  | inl h =>
    have hs : c.ssid = "" ∨ (jsTrim c.ssid).length = 0 := Or.inr (by rw [h]; rfl)
    simp [hs]
  | inr h =>
    by_cases hs : c.ssid = "" ∨ (jsTrim c.ssid).length = 0
    · simp [hs]
    · have ht : c.auth_token = "" ∨ (jsTrim c.auth_token).length = 0 :=
        Or.inr (by rw [h]; rfl)
      simp [hs, ht]

/-- Concrete credentials from the spec's validation scenario: non-empty
password but empty bearer token. -/
def emptyTokenCreds : WiFiCredentials :=
  { ssid := "HomeNet", password := "p@ss1234", auth_token := "",
    device_name := "Kitchen", user_timezone := "UTC" }

/-- Witness for C7: an empty bearer token (with non-empty password)
yields an immediate `INVALID_CREDENTIALS` with the state unchanged. -/
theorem C7_invalid_credentials_no_write_witness :
    sendWiFiCredentials sendState0 emptyTokenCreds (fun _ => WriteOutcome.ok)
      = (sendState0, SendResult.thrown WiFiProvisioningError.INVALID_CREDENTIALS) :=
  C7_invalid_credentials_no_write sendState0 emptyTokenCreds _ rfl
    (Or.inr (by decide))

/-- C1 counterexample: a disconnect arriving before any successful
credential write does not yield `ConnectionFailed`.  The single write
attempt is rejected — so no write ever succeeded — yet because the
rejection message contains "disconnected" the session reports the
optimistic Complete status with a warning and returns normally.  The
classification is made from the error-message text, not from whether a
write succeeded. -/
theorem C1_counterexample :
    disconnectingTransport (btoa (credentialsJson provisioningCreds))
        = WriteOutcome.err "Device was disconnected"
    ∧ containsSub "Device was disconnected" "disconnected" = true
    ∧ sendWiFiCredentials sendState0 provisioningCreds disconnectingTransport
        = ({ deviceConnected := true, statusTimeoutSet := false,
             emitted := [disconnectionStatus], writesAttempted := 1 },
           SendResult.ok)
    ∧ disconnectionStatus.isError = false
    ∧ disconnectionStatus.isComplete = true
    ∧ disconnectionStatus.warning ≠ none := by
  refine ⟨rfl, by decide, by decide, rfl, rfl, by decide⟩

/-- C1 (amended): a failed connection attempt throws
`CONNECTION_FAILED`; once connected, a write rejection is classified by
its message text — a message containing "disconnected" is reclassified
into the optimistic Complete-with-warning emission and a normal return
(even though no write succeeded), while any other rejection throws
`WRITE_FAILED`; a successful write emits nothing and arms the 30-second
deadline, whose later firing produces the optimistic Complete. -/
theorem C1_disconnect_by_message (st : ProvState) (c : WiFiCredentials)
    (transport : String → WriteOutcome) (msg : String)
    (hconn : st.deviceConnected = true)
    (hssid : ¬(c.ssid = "" ∨ (jsTrim c.ssid).length = 0))
    (htok : ¬(c.auth_token = "" ∨ (jsTrim c.auth_token).length = 0)) :
    (connectToDevice false = Except.error BleError.CONNECTION_FAILED)
    ∧ (transport (btoa (credentialsJson c)) = WriteOutcome.err msg →
        containsSub msg "disconnected" = true →
        sendWiFiCredentials st c transport
          = ({ st with
               writesAttempted := st.writesAttempted + 1
               emitted := st.emitted ++ [disconnectionStatus] },
             SendResult.ok))
    ∧ (transport (btoa (credentialsJson c)) = WriteOutcome.err msg →
        containsSub msg "disconnected" = false →
        sendWiFiCredentials st c transport
          = ({ st with writesAttempted := st.writesAttempted + 1 },
             SendResult.thrown WiFiProvisioningError.WRITE_FAILED))
    ∧ (transport (btoa (credentialsJson c)) = WriteOutcome.ok →
        sendWiFiCredentials st c transport
          = ({ st with
               writesAttempted := st.writesAttempted + 1
               statusTimeoutSet := true },
             SendResult.ok)) := by
  refine ⟨rfl, ?_, ?_, ?_⟩
  · intro hw hmsg
    unfold sendWiFiCredentials
    rw [hconn]
    simp [hssid, htok, hw, hmsg]
  · intro hw hmsg
    unfold sendWiFiCredentials
    rw [hconn]
    simp [hssid, htok, hw, hmsg]
  · intro hw
    unfold sendWiFiCredentials
    rw [hconn]
    simp [hssid, htok, hw]

/-- Witness for C1 (amended): the disconnect-message rejection at the
spec's concrete credentials produces the optimistic Complete emission. -/
theorem C1_disconnect_by_message_witness :
    sendWiFiCredentials sendState0 provisioningCreds disconnectingTransport
      = ({ sendState0 with
           writesAttempted := sendState0.writesAttempted + 1
           emitted := sendState0.emitted ++ [disconnectionStatus] },
         SendResult.ok) :=
  (C1_disconnect_by_message sendState0 provisioningCreds disconnectingTransport
      "Device was disconnected" rfl (by decide) (by decide)).2.1 rfl (by decide)

/-- C4 counterexample: a transport that accepts the raw credentials text
but rejects the payload the session writes.  The claimed encoding
fallback would succeed via the text encoding, but `sendWiFiCredentials`
makes exactly one write attempt (base64 of the JSON payload) and throws
`WRITE_FAILED` immediately. -/
theorem C4_counterexample :
    textOnlyTransport (credentialsJson provisioningCreds) = WriteOutcome.ok
    ∧ sendWiFiCredentials sendState0 provisioningCreds textOnlyTransport
        = ({ deviceConnected := true, statusTimeoutSet := false,
             emitted := [], writesAttempted := 1 },
           SendResult.thrown WiFiProvisioningError.WRITE_FAILED) := by
  constructor
  · rw [textOnlyTransport]
    simp
  · decide

/-- C4 (amended): `sendWiFiCredentials` uses a single encoding — base64
(`btoa`) of the serialized JSON — and makes exactly one write attempt;
a non-disconnect rejection of that one attempt throws `WRITE_FAILED`
with no further encodings tried, and an accepted attempt returns
normally with the deadline armed. -/
theorem C4_single_encoding_no_fallback (st : ProvState) (c : WiFiCredentials)
    (transport : String → WriteOutcome) (msg : String)
    (hconn : st.deviceConnected = true)
    (hssid : ¬(c.ssid = "" ∨ (jsTrim c.ssid).length = 0))
    (htok : ¬(c.auth_token = "" ∨ (jsTrim c.auth_token).length = 0)) :
    (transport (btoa (credentialsJson c)) = WriteOutcome.ok →
      sendWiFiCredentials st c transport
        = ({ st with
             writesAttempted := st.writesAttempted + 1
             statusTimeoutSet := true }, SendResult.ok))
    ∧ (transport (btoa (credentialsJson c)) = WriteOutcome.err msg →
        containsSub msg "disconnected" = false →
        sendWiFiCredentials st c transport
          = ({ st with writesAttempted := st.writesAttempted + 1 },
             SendResult.thrown WiFiProvisioningError.WRITE_FAILED)) := by
  constructor
  · intro hw
    unfold sendWiFiCredentials
    rw [hconn]
    simp [hssid, htok, hw]
  · intro hw hmsg
    unfold sendWiFiCredentials
    rw [hconn]
    simp [hssid, htok, hw, hmsg]

/-- Witness for C4 (amended): the text-accepting transport rejects the
one base64 write attempt and `WRITE_FAILED` is thrown at once. -/
theorem C4_single_encoding_no_fallback_witness :
    sendWiFiCredentials sendState0 provisioningCreds textOnlyTransport
      = ({ sendState0 with
           writesAttempted := sendState0.writesAttempted + 1 },
         SendResult.thrown WiFiProvisioningError.WRITE_FAILED) :=
  (C4_single_encoding_no_fallback sendState0 provisioningCreds textOnlyTransport
      "write rejected" rfl (by decide) (by decide)).2 (by decide) (by decide)

/-! ## Claim theorems: service negotiation -/

/-- A service whose 128-bit, non-0000-prefixed UUID differs from the
known provisioning UUID: a fallback-tier candidate in the spec's
strategy. -/
def fallbackOnlyService : ServiceRec :=
  { uuid := "abcdef01-2345-6789-abcd-ef0123456789" }

/-- C3 counterexample: with only a fallback-tier service present (no
exact match), `initialize` fails with `SERVICE_NOT_FOUND`, while the
spec's priority-ordered strategy would have selected that service; the
source matches the exact provisioning UUID only. -/
theorem C3_counterexample :
    initializeServiceSelection [fallbackOnlyService]
        = ServiceSelection.failed WiFiProvisioningError.SERVICE_NOT_FOUND
    ∧ specServiceSelect [] [fallbackOnlyService] = some fallbackOnlyService
    ∧ fallbackOnlyService.uuid ≠ WIFI_SERVICE_UUID := by
  refine ⟨by decide, by decide, by decide⟩

/-- C3 (amended): `initialize` selects the provisioning service by
case-insensitive exact match on the known UUID only — it selects a
member matching that UUID when one exists, and raises
`SERVICE_NOT_FOUND` exactly when no enumerated service matches; there
are no fallback tiers. -/
theorem C3_exact_match_only (services : List ServiceRec) :
    (∀ s, initializeServiceSelection services = ServiceSelection.selected s →
        s ∈ services ∧ strToLower s.uuid = WIFI_SERVICE_UUID)
    ∧ (initializeServiceSelection services
          = ServiceSelection.failed WiFiProvisioningError.SERVICE_NOT_FOUND
        ↔ ∀ s ∈ services, strToLower s.uuid ≠ WIFI_SERVICE_UUID) := by
  have hlow : strToLower WIFI_SERVICE_UUID = WIFI_SERVICE_UUID := by decide
  constructor
  · intro s hs
    unfold initializeServiceSelection at hs
    cases h : findWifiService services with
    | none => rw [h] at hs; simp at hs
    | some s0 =>
      rw [h] at hs
      have hss : s = s0 := by
        cases hs
        rfl
      subst hss
      unfold findWifiService at h
      refine ⟨List.mem_of_find?_eq_some h, ?_⟩
      have hp := List.find?_some h
      rw [hlow] at hp
      simpa using hp
  · unfold initializeServiceSelection
    cases h : findWifiService services with
    | some s0 =>
      unfold findWifiService at h
      have hmem := List.mem_of_find?_eq_some h
      have hp := List.find?_some h
      rw [hlow] at hp
      constructor
      · intro hcontra
        simp at hcontra
      · intro hall
        exact absurd (by simpa using hp) (hall s0 hmem)
    | none =>
      unfold findWifiService at h
      rw [List.find?_eq_none] at h
      constructor
      · intro _ s hsmem
        have hns := h s hsmem
        rw [hlow] at hns
        simpa using hns
      · intro _
        rfl

/-- The service carrying the exact provisioning UUID. -/
def exactService : ServiceRec := { uuid := WIFI_SERVICE_UUID }

/-- Witness for C3 (amended): the exact-UUID service is selected from a
singleton list and satisfies the match property. -/
theorem C3_exact_match_only_witness :
    exactService ∈ [exactService]
    ∧ strToLower exactService.uuid = WIFI_SERVICE_UUID :=
  (C3_exact_match_only [exactService]).1 exactService (by decide)

/-! ## Claim theorems: scanning -/

/-- One callback step preserves the scan invariant: reported identifiers
are duplicate-free and every reported identifier is present in the
`foundDevices` map. -/
theorem scanCallback_invariant (target : Option String) (st : ScanState)
    (d : AdvDevice)
    (h1 : (st.reported.map (fun b => b.id)).Nodup)
    (h2 : ∀ b ∈ st.reported, st.found.any (fun p => p.1 == b.id) = true) :
    ((scanCallback target st d).reported.map (fun b => b.id)).Nodup
    ∧ ∀ b ∈ (scanCallback target st d).reported,
        (scanCallback target st d).found.any (fun p => p.1 == b.id) = true := by
  unfold scanCallback
  split
  · exact ⟨h1, h2⟩
  split
  · exact ⟨h1, h2⟩
  split
  · exact ⟨h1, h2⟩
  split
  · exact ⟨h1, h2⟩
  case _ nm _ _ hfresh =>
    rw [Bool.not_eq_true] at hfresh
    constructor
    · rw [List.map_append, List.nodup_append]
      refine ⟨h1, List.nodup_singleton _, ?_⟩
      intro x hx hx'
      simp only [List.map_singleton, List.mem_singleton] at hx'
      subst hx'
      simp only [List.mem_map] at hx
      obtain ⟨b, hb, hbid⟩ := hx
      have := h2 b hb
      rw [hbid] at this
      rw [this] at hfresh
      cases hfresh
    · intro b hb
      simp only [List.mem_append, List.mem_singleton] at hb
      rw [List.any_append]
      cases hb with
      | inl h => rw [h2 b h]; rfl
      | inr h =>
        subst h
        simp

/-- The scan invariant is preserved by folding any event list. -/
theorem scan_foldl_invariant (target : Option String)
    (events : List AdvDevice) (st : ScanState)
    (h1 : (st.reported.map (fun b => b.id)).Nodup)
    (h2 : ∀ b ∈ st.reported, st.found.any (fun p => p.1 == b.id) = true) :
    ((events.foldl (scanCallback target) st).reported.map
        (fun b => b.id)).Nodup
    ∧ ∀ b ∈ (events.foldl (scanCallback target) st).reported,
        (events.foldl (scanCallback target) st).found.any
          (fun p => p.1 == b.id) = true := by
  induction events generalizing st with
  | nil => exact ⟨h1, h2⟩
  | cons d rest ih =>
    have h := scanCallback_invariant target st d h1 h2
    exact ih _ h.1 h.2

/-- C8: in any scan session, whatever the name filter and whatever the
advertisement stream (names and signal strengths may repeat or differ),
the reported sightings carry pairwise-distinct identifiers — a
peripheral identifier is reported at most once per scan. -/
theorem C8_scan_dedup (target : Option String) (events : List AdvDevice) :
    ((runScan target events).reported.map (fun b => b.id)).Nodup :=
  (scan_foldl_invariant target events { found := [], reported := [] }
    (by simp) (by simp)).1

/-- An advertisement whose name contains the filter string `Zebra` as a
substring but does not carry the hard-coded `AcornPups-` name. -/
def zebraAdv : AdvDevice :=
  { id := "id-1", name := some "Zebra-1", rssi := some (-50),
    isConnectable := some true }

/-- C9 counterexample: scanning with name filter `Zebra` reports
nothing for a peripheral advertising `Zebra-1`, although `Zebra-1`
contains the filter as a substring — the scan filter does not test
substring containment of `nameFilter`. -/
theorem C9_counterexample :
    containsSub "Zebra-1" "Zebra" = true
    ∧ (runScan (some "Zebra") [zebraAdv]).reported = [] := by
  refine ⟨by decide, by decide⟩

/-- One callback step with a truthy filter never reports a name outside
the hard-coded `AcornPups-` pattern. -/
theorem scanCallback_acorn (t : String) (ht : t ≠ "") (st : ScanState)
    (d : AdvDevice)
    (hst : ∀ b ∈ st.reported, startsWithL "AcornPups-".data b.name.data = true) :
    ∀ b ∈ (scanCallback (some t) st d).reported,
      startsWithL "AcornPups-".data b.name.data = true := by
  intro b hb
  unfold scanCallback at hb
  split at hb
  · exact hst b hb
  split at hb
  · exact hst b hb
  split at hb
  · exact hst b hb
  case _ nm _ hfilter =>
    split at hb
    · exact hst b hb
    · simp only [List.mem_append, List.mem_singleton] at hb
      cases hb with
      | inl h => exact hst b h
      | inr h =>
        subst h
        have htr : jsTruthyStr (some t) = true := by
          simp [jsTruthyStr, ht]
        rw [htr] at hfilter
        simpa using hfilter

/-- With a truthy filter, folding any event stream keeps every reported
name inside the hard-coded `AcornPups-` pattern. -/
theorem scan_foldl_acorn (t : String) (ht : t ≠ "") (events : List AdvDevice)
    (st : ScanState)
    (hst : ∀ b ∈ st.reported, startsWithL "AcornPups-".data b.name.data = true) :
    ∀ b ∈ (events.foldl (scanCallback (some t)) st).reported,
      startsWithL "AcornPups-".data b.name.data = true := by
  induction events generalizing st with
  | nil => exact hst
  | cons d rest ih => exact ih _ (scanCallback_acorn t ht st d hst)

/-- One callback step behaves identically for any two truthy filter
strings: the filter's content is never consulted. -/
theorem scanCallback_filter_ignored (t₁ t₂ : String) (h₁ : t₁ ≠ "")
    (h₂ : t₂ ≠ "") (st : ScanState) (d : AdvDevice) :
    scanCallback (some t₁) st d = scanCallback (some t₂) st d := by
  unfold scanCallback
  have e1 : jsTruthyStr (some t₁) = true := by simp [jsTruthyStr, h₁]
  have e2 : jsTruthyStr (some t₂) = true := by simp [jsTruthyStr, h₂]
  rw [e1, e2]

/-- Folding is identical for any two truthy filter strings. -/
theorem scan_foldl_filter_ignored (t₁ t₂ : String) (h₁ : t₁ ≠ "")
    (h₂ : t₂ ≠ "") (events : List AdvDevice) (st : ScanState) :
    events.foldl (scanCallback (some t₁)) st
      = events.foldl (scanCallback (some t₂)) st := by
  induction events generalizing st with
  | nil => rfl
  | cons d rest ih =>
    rw [List.foldl_cons, List.foldl_cons,
      scanCallback_filter_ignored t₁ t₂ h₁ h₂ st d]
    exact ih _

/-- C9 (amended): when a non-empty name filter is supplied, its content
is ignored — any two non-empty filters produce identical scan results —
and a sighting is reported only if its advertised name starts with the
hard-coded literal `AcornPups-`; substring containment of the filter is
never tested. -/
theorem C9_acorn_name_not_filter (t₁ t₂ : String) (h₁ : t₁ ≠ "")
    (h₂ : t₂ ≠ "") (events : List AdvDevice) :
    runScan (some t₁) events = runScan (some t₂) events
    ∧ ∀ b ∈ (runScan (some t₁) events).reported,
        startsWithL "AcornPups-".data b.name.data = true := by
  constructor
  · exact scan_foldl_filter_ignored t₁ t₂ h₁ h₂ events _
  · exact scan_foldl_acorn t₁ h₁ events _ (by simp)

/-- Witness for C9 (amended): the filters `Zebra` and `AcornPups` give
the same (empty) report for the `Zebra-1` advertisement. -/
theorem C9_acorn_name_not_filter_witness :
    runScan (some "Zebra") [zebraAdv] = runScan (some "AcornPups") [zebraAdv] :=
  (C9_acorn_name_not_filter "Zebra" "AcornPups" (by decide) (by decide)
    [zebraAdv]).1

end AcornPups
